import Mathlib

/-
Verification of the engine-analysis layer of the openingtree repository.

Shallow embedding of:
- src/app/stockfish/winningChances (the winning-chances module re-exported by
  src/pres/stockfish/index.js): rawWinningChances, cpWinningChances,
  mateWinningChances, evalWinningChances, chancesToPercent, formatCp,
  getEvalBarPercent;
- src/app/stockfish/StockfishEngine.js: normalizeScore, setMultiPv, and the
  principal-variation token filter of parseInfo;
- src/app/StockfishEngine.js (the engine-session state machine): analyze,
  analyzeInfinite, the debounce timer, startAnalysis, processPendingAnalysis,
  stopAndWait with its forced-timeout path, the health check and recoverEngine,
  together with its static getEvalBarPercent (hard mate cutoff) used for
  comparison with the winning-chances module.

JavaScript numbers are modelled as real numbers (Math.exp as Real.exp,
Math.round x as the floor of x + 1/2, which is the JS half-up rounding);
integer-valued quantities (centipawns, mate counts, MultiPV) are modelled as
integers.
-/

namespace OpeningTree

/-- Engine evaluation score: tagged union of centipawn and mate counts,
as carried by the score objects of the winning-chances module. -/
inductive Score
| cp (v : ℤ)
| mate (v : ℤ)
deriving DecidableEq, Repr

/-! ## winningChances module -/

/-- const MULTIPLIER = -0.00368208 -/
noncomputable def MULTIPLIER : ℝ := -0.00368208

/-- rawWinningChances(cp) = 2 / (1 + Math.exp(MULTIPLIER * cp)) - 1 -/
noncomputable def rawWinningChances (cp : ℝ) : ℝ :=
  2 / (1 + Real.exp (MULTIPLIER * cp)) - 1

/-- cpWinningChances(cp) = rawWinningChances(Math.min(Math.max(-1000, cp), 1000)) -/
noncomputable def cpWinningChances (cp : ℝ) : ℝ :=
  rawWinningChances (min (max (-1000) cp) 1000)

/-- mateWinningChances(mate):
cp = (21 - Math.min(10, Math.abs(mate))) * 100;
signed = cp * (mate > 0 ? 1 : -1); rawWinningChances(signed). -/
noncomputable def mateWinningChances (mate : ℤ) : ℝ :=
  let cp : ℝ := (21 - min 10 |(mate : ℝ)|) * 100
  let signed : ℝ := cp * (if 0 < mate then 1 else -1)
  rawWinningChances signed

/-- evalWinningChances(score): mate branch when score.mate is defined,
otherwise the centipawn branch. -/
noncomputable def evalWinningChances : Score → ℝ
| Score.mate m => mateWinningChances m
| Score.cp c => cpWinningChances c

/-- Math.round, JavaScript half-up rounding: floor (x + 1/2). -/
noncomputable def jsRound (x : ℝ) : ℤ := ⌊x + 1 / 2⌋

/-- chancesToPercent(chances) = Math.round((chances + 1) * 50) -/
noncomputable def chancesToPercent (chances : ℝ) : ℤ :=
  jsRound ((chances + 1) * 50)

/-- getEvalBarPercent(score) = chancesToPercent(evalWinningChances(score)) -/
noncomputable def getEvalBarPercent (score : Score) : ℤ :=
  chancesToPercent (evalWinningChances score)

/-! ### formatCp -/

/-- A single decimal digit character. -/
def digitChar (d : ℕ) : Char := Char.ofNat (48 + d)

/-- Decimal rendering of a natural number below 100 (the integer part of the
clamped value printed by toFixed). -/
def natStr2 (n : ℕ) : String :=
  if n < 10 then String.mk [digitChar n]
  else String.mk [digitChar (n / 10), digitChar (n % 10)]

/-- The clamped value of formatCp, in tenths of a pawn:
value = Math.max(Math.min(Math.round(cp / 10) / 10, 99), -99), scaled by 10
so that it stays integral.  Math.round(cp / 10) is floor((cp + 5) / 10). -/
def formatCpTenths (cp : ℤ) : ℤ :=
  max (min (Int.fdiv (cp + 5) 10) 990) (-990)

/-- value.toFixed(1) for a value of t / 10 pawns with |t| at most 990. -/
def toFixed1 (t : ℤ) : String :=
  (if t < 0 then "-" else "")
    ++ natStr2 (t.natAbs / 10) ++ "." ++ String.mk [digitChar (t.natAbs % 10)]

/-- formatCp(cp) = (value > 0 ? + : ) + value.toFixed(1) -/
def formatCp (cp : ℤ) : String :=
  (if 0 < formatCpTenths cp then "+" else "") ++ toFixed1 (formatCpTenths cp)

/-! ## app/stockfish/StockfishEngine.js: score normalization and MultiPV -/

/-- normalizeScore(score): identity when White is to move, otherwise negate
the centipawn value or the mate count. -/
def normalizeScore (isWhiteTurn : Bool) (score : Score) : Score :=
  if isWhiteTurn then score
  else
    match score with
    | Score.mate m => Score.mate (-m)
    | Score.cp c => Score.cp (-c)

/-- Option-setting command sent by the normalizing engine wrapper. -/
inductive NCmd
| setoptionMultiPV (v : ℤ)
deriving DecidableEq, Repr

/-- The fields of the normalizing wrapper that setMultiPv touches. -/
structure NormEngine where
  multiPv : ℤ
  isReady : Bool
deriving DecidableEq, Repr

/-- setMultiPv(multiPv): this.multiPv = Math.max(1, Math.min(5, multiPv));
if (this.isReady) send setoption name MultiPV value this.multiPv.
Returns the updated wrapper and the commands sent by this call. -/
def setMultiPv (e : NormEngine) (multiPv : ℤ) : NormEngine × List NCmd :=
  let m := max 1 (min 5 multiPv)
  ({ e with multiPv := m }, if e.isReady then [NCmd.setoptionMultiPV m] else [])

/-! ### principal-variation token filters of parseInfo -/

/-- Character class [a-h] of the coordinate-move regex. -/
def isFileChar (c : Char) : Bool := decide ('a' ≤ c) && decide (c ≤ 'h')

/-- Character class [1-8] of the coordinate-move regex. -/
def isRankChar (c : Char) : Bool := decide ('1' ≤ c) && decide (c ≤ '8')

/-- The anchored regex [a-h][1-8][a-h][1-8] tested against the start of a
token (the regex is not end-anchored, so only the first four characters
matter). -/
def coordMoveTest (p : String) : Bool :=
  match p.data with
  | a :: r1 :: b :: r2 :: _ =>
      isFileChar a && isRankChar r1 && isFileChar b && isRankChar r2
  | _ => false

/-- The filter predicate of src/app/StockfishEngine.js parseInfo:
p => p && p.length >= 4 && the coordinate-move regex test. -/
def pvMoveToken (p : String) : Bool :=
  decide (4 ≤ p.length) && coordMoveTest p

/-- parts.slice(i + 1).filter(...) over the tokens after the pv keyword in
src/app/StockfishEngine.js. -/
def pvTokens (tail : List String) : List String := tail.filter pvMoveToken

/-- parts.slice(i + 1).filter(m => m && m.length >= 4) over the tokens after
the pv keyword in src/app/stockfish/StockfishEngine.js. -/
def pvTokensLenOnly (tail : List String) : List String :=
  tail.filter (fun m => decide (4 ≤ m.length))

/-- Modelled from the spec words: scanning that stops at the first token that
fails the coordinate-move pattern and keeps exactly the tokens before it. -/
def spec_pvScan (tail : List String) : List String := tail.takeWhile pvMoveToken

/-! ## src/app/StockfishEngine.js: the legacy display helpers -/

/-- Score type tag of the legacy static helpers. -/
inductive ScoreType
| cp
| mate
deriving DecidableEq, Repr

/-- Side to move tag of the legacy static helpers. -/
inductive Turn
| w
| b
deriving DecidableEq, Repr

/-- static getEvalBarPercent(score, scoreType, turn) of
src/app/StockfishEngine.js lines 718 to 737: mate scores take a hard 0 / 100
cutoff; centipawn scores go through a sigmoid on the clamped value. -/
noncomputable def legacyGetEvalBarPercent
    (score : ℤ) (scoreType : ScoreType) (turn : Turn) : ℝ :=
  if scoreType = ScoreType.mate then
    let mateScore : ℤ := if turn = Turn.b then -score else score
    if 0 < mateScore then 100 else 0
  else
    let adjustedScore : ℤ := if turn = Turn.b then -score else score
    let maxScore : ℝ := 1000
    let clampedScore : ℝ := max (-maxScore) (min maxScore (adjustedScore : ℝ))
    let percent : ℝ := 50 + 50 * (2 / (1 + Real.exp (-clampedScore / 200)) - 1)
    max 0 (min 100 percent)

/-! ## src/app/StockfishEngine.js: the engine session state machine

The session is driven by browser events (method calls, timer callbacks and
worker messages).  Each event handler below is a function on the session
record; asynchronous awaits are modelled by the fact that the code resumed
after an awaited promise either runs inside the resolving handler
(processPendingAnalysis is invoked directly by the bestmove handler and by
forceStopComplete) or is recorded as an explicit continuation
(recoverResume for the recoverEngine code that resumes once init resolves).
Timer callbacks (the debounce timer, the 3 second stop timeout, the 5 second
health-check tick) are delivered as events; their guards are the exact checks
the callbacks perform.  Wall-clock time is an explicit natural number carried
by the events that read Date.now(). -/

/-- The EngineState enum. -/
inductive EngineState
| uninitialized
| initializing
| ready
| analyzing
| stopping
| error
deriving DecidableEq, Repr

/-- Commands posted to the worker (the UCI text lines, as structured data). -/
inductive Cmd
| uci
| setoptionMultiPV (v : ℤ)
| isready
| positionFen (fen : String)
| goDepth (d : ℤ)
| goInfinite
| stop
| ucinewgame
deriving DecidableEq, Repr

/-- Observable actions of the session on its worker. -/
inductive Act
| send (c : Cmd)
| terminateWorker
| spawnWorker
deriving DecidableEq, Repr

/-- A queued analysis request: the arguments captured by the debounce timer
and by this.pendingAnalysis = fen, callback, infinite, id.  Callbacks are
modelled as opaque identifiers. -/
structure Req where
  fen : String
  cb : ℕ
  infinite : Bool
  id : ℕ
deriving DecidableEq, Repr

/-- The session fields of the StockfishEngine class that the modelled
handlers read or write, plus the trace of worker-directed actions. -/
structure Session where
  worker : Bool
  state : EngineState
  currentFen : Option String
  analysisCallback : Option ℕ
  depth : ℤ
  multiPV : ℤ
  pendingAnalysis : Option Req
  analysisId : ℕ
  currentAnalysisId : ℕ
  debounce : Option Req
  lastActivityTime : ℕ
  healthCheckOn : Bool
  stopWaiting : Bool
  recoveryAttempts : ℕ
  recoverResume : Option (Option (String × ℕ))
  trace : List Act
deriving DecidableEq, Repr

/-- sendCommand(cmd): posts to the worker when one exists. -/
def sendCommand (c : Cmd) (e : Session) : Session :=
  if e.worker then { e with trace := e.trace ++ [Act.send c] } else e

/-- _doAnalyze(fen, callback): record the position and callback, enter
ANALYZING, stamp the activity time, send position fen and go depth. -/
def doAnalyze (now : ℕ) (fen : String) (cb : ℕ) (e : Session) : Session :=
  let e := { e with currentFen := some fen, analysisCallback := some cb,
                    state := EngineState.analyzing, lastActivityTime := now }
  sendCommand (Cmd.goDepth e.depth) (sendCommand (Cmd.positionFen fen) e)

/-- _doAnalyzeInfinite(fen, callback): as doAnalyze but sends go infinite. -/
def doAnalyzeInfinite (now : ℕ) (fen : String) (cb : ℕ) (e : Session) : Session :=
  let e := { e with currentFen := some fen, analysisCallback := some cb,
                    state := EngineState.analyzing, lastActivityTime := now }
  sendCommand Cmd.goInfinite (sendCommand (Cmd.positionFen fen) e)

/-- processPendingAnalysis(): only in READY; takes the pending request and
dispatches it when its id is still the latest issued, otherwise drops it. -/
def processPendingAnalysis (now : ℕ) (e : Session) : Session :=
  if e.state ≠ EngineState.ready then e
  else
    match e.pendingAnalysis with
    | none => e
    | some r =>
      let e := { e with pendingAnalysis := none }
      if r.id = e.analysisId then
        let e := { e with currentAnalysisId := r.id }
        if r.infinite then doAnalyzeInfinite now r.fen r.cb e
        else doAnalyze now r.fen r.cb e
      else e

/-- forceStopComplete(): resolve the stop promise, force READY and process
any pending analysis. -/
def forceStopComplete (now : ℕ) (e : Session) : Session :=
  processPendingAnalysis now
    { e with stopWaiting := false, state := EngineState.ready }

/-- cleanup(): stop the health check, clear the debounce timer, terminate the
worker, reset to UNINITIALIZED and drop the pending request and the stop
promise. -/
def cleanup (e : Session) : Session :=
  let e := { e with healthCheckOn := false, debounce := none }
  let e := if e.worker then
      { e with trace := e.trace ++ [Act.terminateWorker], worker := false }
    else e
  { e with state := EngineState.uninitialized, pendingAnalysis := none,
           stopWaiting := false }

/-- init(): returns early when already INITIALIZING, or READY with a worker;
otherwise cleans up, spawns the worker, enters INITIALIZING and sends uci.
(The synchronous part; the promise resolution is the readyok handler.) -/
def init (e : Session) : Session :=
  if e.state = EngineState.initializing then e
  else if e.state = EngineState.ready ∧ e.worker then e
  else
    let e := cleanup e
    let e := { e with state := EngineState.initializing, worker := true,
                      trace := e.trace ++ [Act.spawnWorker] }
    sendCommand Cmd.uci e

/-- analyze(fen, callback, depth): guarded on a live worker and a usable
state; optionally updates the depth, increments the analysis id to supersede
any pending request, clears the running debounce timer and arms it with the
new request. -/
def analyze (fen : String) (cb : ℕ) (depthOpt : Option ℤ) (e : Session) : Session :=
  if ¬ e.worker ∨ e.state = EngineState.uninitialized
      ∨ e.state = EngineState.error then e
  else
    let e := match depthOpt with
      | some d => { e with depth := d }
      | none => e
    { e with analysisId := e.analysisId + 1,
             debounce := some ⟨fen, cb, false, e.analysisId + 1⟩ }

/-- analyzeInfinite(fen, callback): as analyze, arming the debounce timer
with an infinite request. -/
def analyzeInfinite (fen : String) (cb : ℕ) (e : Session) : Session :=
  if ¬ e.worker ∨ e.state = EngineState.uninitialized
      ∨ e.state = EngineState.error then e
  else
    { e with analysisId := e.analysisId + 1,
             debounce := some ⟨fen, cb, true, e.analysisId + 1⟩ }

/-- _startAnalysis(fen, callback, infinite, id), run when the debounce timer
fires: drop superseded ids; queue the request; when ANALYZING, stopAndWait
(enter STOPPING, send stop, create the stop promise - the dispatch then
happens inside the resolving handler); when STOPPING, stopAndWait resolves at
once and the request stays queued for the next READY transition; when READY,
process immediately; when INITIALIZING, the readyok handler will process. -/
def startAnalysis (now : ℕ) (r : Req) (e : Session) : Session :=
  if r.id ≠ e.analysisId then e
  else
    let e := { e with pendingAnalysis := some r }
    if e.state = EngineState.analyzing then
      if e.stopWaiting then e
      else sendCommand Cmd.stop
        { e with state := EngineState.stopping, stopWaiting := true }
    else if e.state = EngineState.stopping then e
    else if e.state = EngineState.ready then processPendingAnalysis now e
    else e

/-- The debounce timer firing: runs _startAnalysis with the captured
arguments; a cleared timer does nothing. -/
def debounceFire (now : ℕ) (e : Session) : Session :=
  match e.debounce with
  | none => e
  | some r => startAnalysis now r { e with debounce := none }

/-- The 3 second safety timeout inside stopAndWait: if the stop promise is
still unresolved, force completion. -/
def stopTimeoutFire (now : ℕ) (e : Session) : Session :=
  if e.stopWaiting then forceStopComplete now e else e

/-- recoverEngine(): capture whether we were analyzing plus the live fen and
callback, clean up, restart init and record the continuation that resumes
when init resolves (reset the retry counter and resubmit the captured
request). -/
def recoverEngine (e : Session) : Session :=
  let wasAnalyzing : Bool := decide (e.state = EngineState.analyzing)
  let lastFen := e.currentFen
  let lastCallback := e.analysisCallback
  let payload : Option (String × ℕ) :=
    match wasAnalyzing, lastFen, lastCallback with
    | true, some f, some cb => some (f, cb)
    | _, _, _ => none
  let e := init (cleanup e)
  { e with recoverResume := some payload }

/-- The interval callback installed by startHealthCheck: recover when
ANALYZING with more than 15 seconds of silence; force stop completion when
STOPPING with more than 5 seconds of silence. -/
def healthTick (now : ℕ) (e : Session) : Session :=
  if ¬ e.healthCheckOn then e
  else
    let e := if e.state = EngineState.analyzing
        ∧ 15000 < now - e.lastActivityTime then recoverEngine e else e
    if e.state = EngineState.stopping ∧ 5000 < now - e.lastActivityTime then
      forceStopComplete now e
    else e

/-- stop(): supersede any pending request, clear it and the debounce timer,
and when ANALYZING enter STOPPING and send stop (without creating a stop
promise). -/
def stopCall (e : Session) : Session :=
  let e := { e with analysisId := e.analysisId + 1, pendingAnalysis := none,
                    debounce := none }
  if e.state = EngineState.analyzing then
    sendCommand Cmd.stop { e with state := EngineState.stopping }
  else e

/-- Messages from the worker that the session reacts to. -/
inductive Msg
| uciok
| readyok
| bestmove
| info
deriving DecidableEq, Repr

/-- handleSingleMessage uciok: configure MultiPV and ask isready. -/
def handleUciok (e : Session) : Session :=
  sendCommand Cmd.isready (sendCommand (Cmd.setoptionMultiPV e.multiPV) e)

/-- handleSingleMessage readyok: when INITIALIZING, enter READY, start the
health check and resolve the init promise - which resumes the recoverEngine
continuation; in every case process any pending analysis. -/
def handleReadyok (now : ℕ) (e : Session) : Session :=
  if e.state = EngineState.initializing then
    let e := processPendingAnalysis now
      { e with state := EngineState.ready, healthCheckOn := true }
    match e.recoverResume with
    | some payload =>
      let e := { e with recoverResume := none, recoveryAttempts := 0 }
      match payload with
      | some (f, cb) => analyzeInfinite f cb e
      | none => e
    | none => e
  else processPendingAnalysis now e

/-- handleSingleMessage bestmove: return to READY, resolve the stop promise
when we were STOPPING, and process any pending analysis. -/
def handleBestmove (now : ℕ) (e : Session) : Session :=
  let wasStopping := e.state = EngineState.stopping
  processPendingAnalysis now
    { e with state := EngineState.ready,
             stopWaiting := if wasStopping then false else e.stopWaiting }

/-- worker.onmessage: stamp the activity time, then dispatch on the message.
info lines only feed the analysis callback and mutate no session state. -/
def handleMessage (now : ℕ) (m : Msg) (e : Session) : Session :=
  let e := { e with lastActivityTime := now }
  match m with
  | Msg.uciok => handleUciok e
  | Msg.readyok => handleReadyok now e
  | Msg.bestmove => handleBestmove now e
  | Msg.info => e

/-- The events the environment can deliver to the session. -/
inductive Ev
| analyze (fen : String) (cb : ℕ) (depthOpt : Option ℤ)
| analyzeInfinite (fen : String) (cb : ℕ)
| debounceFire (now : ℕ)
| stopTimeout (now : ℕ)
| healthTick (now : ℕ)
| msg (m : Msg) (now : ℕ)
| stop
| terminate

/-- One step of the session under an event. -/
def step (ev : Ev) (e : Session) : Session :=
  match ev with
  | Ev.analyze fen cb depthOpt => analyze fen cb depthOpt e
  | Ev.analyzeInfinite fen cb => analyzeInfinite fen cb e
  | Ev.debounceFire now => debounceFire now e
  | Ev.stopTimeout now => stopTimeoutFire now e
  | Ev.healthTick now => healthTick now e
  | Ev.msg m now => handleMessage now m e
  | Ev.stop => stopCall e
  | Ev.terminate => cleanup e

/-! ## Concrete sessions used by the witnesses -/

/-- A session in a given state with a live worker, default depth 20 and
MultiPV 3, an empty trace and no pending work. -/
def mkSession (st : EngineState) : Session :=
  { worker := true, state := st, currentFen := none, analysisCallback := none,
    depth := 20, multiPV := 3, pendingAnalysis := none, analysisId := 0,
    currentAnalysisId := 0, debounce := none, lastActivityTime := 0,
    healthCheckOn := true, stopWaiting := false, recoveryAttempts := 0,
    recoverResume := none, trace := [] }

/-- A concrete stalled analyzing session: live worker, a position and a
callback under analysis, last activity at time 0. -/
def analyzingSession : Session :=
  { mkSession EngineState.analyzing with
      currentFen := some "stalledfen", analysisCallback := some 4 }

/-! ## Claims -/

/-- Claim C4: applying the perspective normalization twice with Black to move
returns the original centipawn score. -/
theorem claim_C4_normalize_involution (c : ℤ) :
    normalizeScore false (normalizeScore false (Score.cp c)) = Score.cp c := by
  simp [normalizeScore]

/-- Claim C9: setMultiPv stores a line count clamped into [1, 5], and any
MultiPV option command it sends carries a value between 1 and 5. -/
theorem claim_C9_setMultiPv_clamped (e : NormEngine) (n : ℤ) :
    (1 ≤ (setMultiPv e n).1.multiPv ∧ (setMultiPv e n).1.multiPv ≤ 5) ∧
    (∀ v : ℤ, NCmd.setoptionMultiPV v ∈ (setMultiPv e n).2 →
      1 ≤ v ∧ v ≤ 5) := by
  unfold setMultiPv
  refine ⟨⟨le_max_left _ _, max_le (by norm_num) ?_⟩, ?_⟩
  · exact le_trans (min_le_left _ _) (by norm_num)
  · intro v hv
    simp at hv
    obtain ⟨-, rfl⟩ := hv
    exact ⟨le_max_left _ _, max_le (by norm_num)
      (le_trans (min_le_left _ _) (by norm_num))⟩

/-- Claim C9 witness: setMultiPv 99 on a ready wrapper sends a MultiPV value
between 1 and 5. -/
theorem claim_C9_witness :
    1 ≤ (5 : ℤ) ∧ (5 : ℤ) ≤ 5 :=
  (claim_C9_setMultiPv_clamped ⟨3, true⟩ 99).2 5 (by decide)

/-- Claim C6 counterexample: the parser does not stop at the first failing
token.  On the pv tail [e2e4, junk, d2d4] the token junk fails the
coordinate-move pattern, yet d2d4, which occurs after it, is kept by the
filter; the claimed scan-and-stop behaviour would keep only e2e4. -/
theorem claim_C6_counterexample :
    pvMoveToken "junk" = false ∧
    pvTokens ["e2e4", "junk", "d2d4"] = ["e2e4", "d2d4"] ∧
    spec_pvScan ["e2e4", "junk", "d2d4"] = ["e2e4"] ∧
    ("d2d4" : String) ∈ pvTokens ["e2e4", "junk", "d2d4"] := by
  refine ⟨by decide, by decide, by decide, by decide⟩

/-- Claim C6 amended: the pv extraction keeps exactly the tokens that match
the filter predicate, wherever they occur in the tail (a filter, preserving
order, not a scan that stops at the first failure); the second parser keeps
exactly the tokens of length at least four. -/
theorem claim_C6_pv_filter (ts : List String) (t : String) :
    (t ∈ pvTokens ts ↔ t ∈ ts ∧ pvMoveToken t = true) ∧
    List.Sublist (pvTokens ts) ts ∧
    (t ∈ pvTokensLenOnly ts ↔ t ∈ ts ∧ 4 ≤ t.length) := by
  refine ⟨?_, List.filter_sublist _, ?_⟩
  · simp [pvTokens, List.mem_filter]
  · simp [pvTokensLenOnly, List.mem_filter]

/-- Claim C1: analyze(P1) then analyze(P2) before the first debounce timer
fires (the second call clears and rearms the single debounce timer, so only
the P2 request reaches startAnalysis, and its id is the latest) produces
exactly one dispatch - position fen P2 followed by go depth - and no command
carrying P1 is ever sent. -/
theorem claim_C1_debounce_supersedes
    (e : Session) (P1 P2 : String) (cb1 cb2 t : ℕ)
    (hw : e.worker = true) (hs : e.state = EngineState.ready)
    (hP : Act.send (Cmd.positionFen P1) ∉ e.trace) (hne : P1 ≠ P2) :
    (step (Ev.debounceFire t)
        (step (Ev.analyze P2 cb2 none)
          (step (Ev.analyze P1 cb1 none) e))).trace
      = e.trace ++ [Act.send (Cmd.positionFen P2), Act.send (Cmd.goDepth e.depth)]
    ∧ (step (Ev.debounceFire t)
        (step (Ev.analyze P2 cb2 none)
          (step (Ev.analyze P1 cb1 none) e))).currentFen = some P2
    ∧ (step (Ev.debounceFire t)
        (step (Ev.analyze P2 cb2 none)
          (step (Ev.analyze P1 cb1 none) e))).state = EngineState.analyzing
    ∧ Act.send (Cmd.positionFen P1) ∉
        (step (Ev.debounceFire t)
          (step (Ev.analyze P2 cb2 none)
            (step (Ev.analyze P1 cb1 none) e))).trace := by
  simp only [step, analyze, debounceFire, startAnalysis, processPendingAnalysis,
    doAnalyze, doAnalyzeInfinite, sendCommand, hw, hs]
  simp [hs, hw, hP, hne, Ne.symm hne]

/-- Claim C1 witness: the scenario run from a concrete ready session. -/
theorem claim_C1_witness :
    (step (Ev.debounceFire 100)
        (step (Ev.analyze "fen2" 2 none)
          (step (Ev.analyze "fen1" 1 none) (mkSession EngineState.ready)))).trace
      = (mkSession EngineState.ready).trace
        ++ [Act.send (Cmd.positionFen "fen2"),
            Act.send (Cmd.goDepth (mkSession EngineState.ready).depth)]
    ∧ (step (Ev.debounceFire 100)
        (step (Ev.analyze "fen2" 2 none)
          (step (Ev.analyze "fen1" 1 none) (mkSession EngineState.ready)))).currentFen
        = some "fen2"
    ∧ (step (Ev.debounceFire 100)
        (step (Ev.analyze "fen2" 2 none)
          (step (Ev.analyze "fen1" 1 none) (mkSession EngineState.ready)))).state
        = EngineState.analyzing
    ∧ Act.send (Cmd.positionFen "fen1") ∉
        (step (Ev.debounceFire 100)
          (step (Ev.analyze "fen2" 2 none)
            (step (Ev.analyze "fen1" 1 none) (mkSession EngineState.ready)))).trace :=
  claim_C1_debounce_supersedes (mkSession EngineState.ready) "fen1" "fen2" 1 2 100
    rfl rfl (by simp [mkSession]) (by decide)

/-- Claim C2: from Analyzing, a superseding analyze request fires its
debounce, queues itself and enters Stopping with a stop command sent; when no
bestmove arrives and the 3 second stop timeout fires, the session is forced
through Ready (forceStopComplete sets READY and then processes the pending
request from there) and the queued request is dispatched. -/
theorem claim_C2_forced_stop_timeout
    (e : Session) (P2 : String) (cb t1 t2 : ℕ)
    (hw : e.worker = true) (hs : e.state = EngineState.analyzing)
    (hsw : e.stopWaiting = false) :
    (step (Ev.debounceFire t1) (step (Ev.analyze P2 cb none) e)).state
        = EngineState.stopping
    ∧ (step (Ev.debounceFire t1) (step (Ev.analyze P2 cb none) e)).stopWaiting = true
    ∧ (step (Ev.debounceFire t1) (step (Ev.analyze P2 cb none) e)).trace
        = e.trace ++ [Act.send Cmd.stop]
    ∧ (step (Ev.debounceFire t1) (step (Ev.analyze P2 cb none) e)).pendingAnalysis
        = some ⟨P2, cb, false, e.analysisId + 1⟩
    ∧ step (Ev.stopTimeout t2) (step (Ev.debounceFire t1) (step (Ev.analyze P2 cb none) e))
        = processPendingAnalysis t2
            { (step (Ev.debounceFire t1) (step (Ev.analyze P2 cb none) e)) with
                state := EngineState.ready, stopWaiting := false }
    ∧ (step (Ev.stopTimeout t2)
        (step (Ev.debounceFire t1) (step (Ev.analyze P2 cb none) e))).state
        = EngineState.analyzing
    ∧ (step (Ev.stopTimeout t2)
        (step (Ev.debounceFire t1) (step (Ev.analyze P2 cb none) e))).currentFen
        = some P2
    ∧ (step (Ev.stopTimeout t2)
        (step (Ev.debounceFire t1) (step (Ev.analyze P2 cb none) e))).trace
        = e.trace ++ [Act.send Cmd.stop, Act.send (Cmd.positionFen P2),
                      Act.send (Cmd.goDepth e.depth)] := by
  simp only [step, analyze, debounceFire, startAnalysis, processPendingAnalysis,
    doAnalyze, doAnalyzeInfinite, sendCommand, stopTimeoutFire, forceStopComplete,
    hw, hs, hsw]
  simp [hs, hw, hsw]

/-- Claim C2 witness: the scenario run from a concrete analyzing session. -/
theorem claim_C2_witness :
    (step (Ev.debounceFire 50) (step (Ev.analyze "fen9" 7 none)
        (mkSession EngineState.analyzing))).state = EngineState.stopping
    ∧ (step (Ev.debounceFire 50) (step (Ev.analyze "fen9" 7 none)
        (mkSession EngineState.analyzing))).stopWaiting = true
    ∧ (step (Ev.debounceFire 50) (step (Ev.analyze "fen9" 7 none)
        (mkSession EngineState.analyzing))).trace
        = (mkSession EngineState.analyzing).trace ++ [Act.send Cmd.stop]
    ∧ (step (Ev.debounceFire 50) (step (Ev.analyze "fen9" 7 none)
        (mkSession EngineState.analyzing))).pendingAnalysis
        = some ⟨"fen9", 7, false, (mkSession EngineState.analyzing).analysisId + 1⟩
    ∧ step (Ev.stopTimeout 6000) (step (Ev.debounceFire 50)
        (step (Ev.analyze "fen9" 7 none) (mkSession EngineState.analyzing)))
        = processPendingAnalysis 6000
            { (step (Ev.debounceFire 50) (step (Ev.analyze "fen9" 7 none)
                (mkSession EngineState.analyzing))) with
                state := EngineState.ready, stopWaiting := false }
    ∧ (step (Ev.stopTimeout 6000) (step (Ev.debounceFire 50)
        (step (Ev.analyze "fen9" 7 none) (mkSession EngineState.analyzing)))).state
        = EngineState.analyzing
    ∧ (step (Ev.stopTimeout 6000) (step (Ev.debounceFire 50)
        (step (Ev.analyze "fen9" 7 none) (mkSession EngineState.analyzing)))).currentFen
        = some "fen9"
    ∧ (step (Ev.stopTimeout 6000) (step (Ev.debounceFire 50)
        (step (Ev.analyze "fen9" 7 none) (mkSession EngineState.analyzing)))).trace
        = (mkSession EngineState.analyzing).trace
          ++ [Act.send Cmd.stop, Act.send (Cmd.positionFen "fen9"),
              Act.send (Cmd.goDepth (mkSession EngineState.analyzing).depth)] :=
  claim_C2_forced_stop_timeout (mkSession EngineState.analyzing) "fen9" 7 50 6000
    rfl rfl rfl

/-- Claim C3: while Analyzing with more than 15 seconds of worker silence,
one health-check tick triggers exactly one recovery cycle - the worker is
terminated, a fresh one spawned, uci sent, the session left Initializing with
the live fen and callback captured for resubmission; a further tick does
nothing more (the health check was cleared by cleanup).  After the uciok and
readyok round trip the captured request is resubmitted through
analyzeInfinite, and the debounce firing dispatches it: the stalled position
and callback are analyzing again, not dropped. -/
theorem claim_C3_stall_recovery_resubmits
    (e : Session) (F : String) (cb now now2 t2 t3 t4 : ℕ)
    (hw : e.worker = true) (hs : e.state = EngineState.analyzing)
    (hh : e.healthCheckOn = true) (hf : e.currentFen = some F)
    (hc : e.analysisCallback = some cb)
    (hstall : e.lastActivityTime + 15000 < now) :
    (step (Ev.healthTick now) e).trace
        = e.trace ++ [Act.terminateWorker, Act.spawnWorker, Act.send Cmd.uci]
    ∧ (step (Ev.healthTick now) e).state = EngineState.initializing
    ∧ (step (Ev.healthTick now) e).recoverResume = some (some (F, cb))
    ∧ step (Ev.healthTick now2) (step (Ev.healthTick now) e)
        = step (Ev.healthTick now) e
    ∧ (step (Ev.msg Msg.uciok t2) (step (Ev.healthTick now) e)).trace
        = (step (Ev.healthTick now) e).trace
          ++ [Act.send (Cmd.setoptionMultiPV e.multiPV), Act.send Cmd.isready]
    ∧ (step (Ev.msg Msg.readyok t3)
        (step (Ev.msg Msg.uciok t2) (step (Ev.healthTick now) e))).state
        = EngineState.ready
    ∧ (step (Ev.msg Msg.readyok t3)
        (step (Ev.msg Msg.uciok t2) (step (Ev.healthTick now) e))).debounce
        = some ⟨F, cb, true, e.analysisId + 1⟩
    ∧ (step (Ev.debounceFire t4) (step (Ev.msg Msg.readyok t3)
        (step (Ev.msg Msg.uciok t2) (step (Ev.healthTick now) e)))).state
        = EngineState.analyzing
    ∧ (step (Ev.debounceFire t4) (step (Ev.msg Msg.readyok t3)
        (step (Ev.msg Msg.uciok t2) (step (Ev.healthTick now) e)))).currentFen
        = some F
    ∧ (step (Ev.debounceFire t4) (step (Ev.msg Msg.readyok t3)
        (step (Ev.msg Msg.uciok t2) (step (Ev.healthTick now) e)))).analysisCallback
        = some cb
    ∧ (step (Ev.debounceFire t4) (step (Ev.msg Msg.readyok t3)
        (step (Ev.msg Msg.uciok t2) (step (Ev.healthTick now) e)))).trace
        = (step (Ev.msg Msg.uciok t2) (step (Ev.healthTick now) e)).trace
          ++ [Act.send (Cmd.positionFen F), Act.send Cmd.goInfinite] := by
  have hstall2 : 15000 < now - e.lastActivityTime := by omega
  simp only [step, healthTick, recoverEngine, cleanup, init, sendCommand,
    handleMessage, handleUciok, handleReadyok, processPendingAnalysis,
    analyzeInfinite, debounceFire, startAnalysis, doAnalyze, doAnalyzeInfinite,
    hw, hs, hh, hf, hc, hstall2]
  simp [hs, hw, hh, hf, hc, hstall2]

/-- Claim C3 witness: the recovery scenario run from a concrete stalled
analyzing session. -/
theorem claim_C3_witness :
    (step (Ev.healthTick 99999) (analyzingSession)).trace
        = (analyzingSession).trace
          ++ [Act.terminateWorker, Act.spawnWorker, Act.send Cmd.uci]
    ∧ (step (Ev.healthTick 99999) (analyzingSession)).state
        = EngineState.initializing
    ∧ (step (Ev.healthTick 99999) (analyzingSession)).recoverResume
        = some (some ("stalledfen", 4))
    ∧ step (Ev.healthTick 100000) (step (Ev.healthTick 99999) (analyzingSession))
        = step (Ev.healthTick 99999) (analyzingSession)
    ∧ (step (Ev.msg Msg.uciok 100001)
        (step (Ev.healthTick 99999) (analyzingSession))).trace
        = (step (Ev.healthTick 99999) (analyzingSession)).trace
          ++ [Act.send (Cmd.setoptionMultiPV (analyzingSession).multiPV),
              Act.send Cmd.isready]
    ∧ (step (Ev.msg Msg.readyok 100002) (step (Ev.msg Msg.uciok 100001)
        (step (Ev.healthTick 99999) (analyzingSession)))).state
        = EngineState.ready
    ∧ (step (Ev.msg Msg.readyok 100002) (step (Ev.msg Msg.uciok 100001)
        (step (Ev.healthTick 99999) (analyzingSession)))).debounce
        = some ⟨"stalledfen", 4, true, (analyzingSession).analysisId + 1⟩
    ∧ (step (Ev.debounceFire 100003) (step (Ev.msg Msg.readyok 100002)
        (step (Ev.msg Msg.uciok 100001)
          (step (Ev.healthTick 99999) (analyzingSession))))).state
        = EngineState.analyzing
    ∧ (step (Ev.debounceFire 100003) (step (Ev.msg Msg.readyok 100002)
        (step (Ev.msg Msg.uciok 100001)
          (step (Ev.healthTick 99999) (analyzingSession))))).currentFen
        = some "stalledfen"
    ∧ (step (Ev.debounceFire 100003) (step (Ev.msg Msg.readyok 100002)
        (step (Ev.msg Msg.uciok 100001)
          (step (Ev.healthTick 99999) (analyzingSession))))).analysisCallback
        = some 4
    ∧ (step (Ev.debounceFire 100003) (step (Ev.msg Msg.readyok 100002)
        (step (Ev.msg Msg.uciok 100001)
          (step (Ev.healthTick 99999) (analyzingSession))))).trace
        = (step (Ev.msg Msg.uciok 100001)
            (step (Ev.healthTick 99999) (analyzingSession))).trace
          ++ [Act.send (Cmd.positionFen "stalledfen"), Act.send Cmd.goInfinite] :=
  claim_C3_stall_recovery_resubmits analyzingSession "stalledfen" 4 99999 100000
    100001 100002 100003 rfl rfl rfl rfl rfl (by simp [analyzingSession, mkSession])

/-! ## Analytic facts about the winning-chances sigmoid -/

/-- rawWinningChances is monotone: the multiplier is negative, so a larger
centipawn value gives a smaller exponent, a smaller denominator and a larger
quotient. -/
lemma rawWinningChances_mono {a b : ℝ} (h : a ≤ b) :
    rawWinningChances a ≤ rawWinningChances b := by
  unfold rawWinningChances MULTIPLIER
  have h1 : (-0.00368208 : ℝ) * b ≤ (-0.00368208) * a := by nlinarith
  have h2 : Real.exp ((-0.00368208) * b) ≤ Real.exp ((-0.00368208) * a) :=
    Real.exp_le_exp.mpr h1
  have p1 : (0 : ℝ) < 1 + Real.exp ((-0.00368208) * a) := by positivity
  have p2 : (0 : ℝ) < 1 + Real.exp ((-0.00368208) * b) := by positivity
  have : 2 / (1 + Real.exp ((-0.00368208) * a))
      ≤ 2 / (1 + Real.exp ((-0.00368208) * b)) := by
    rw [div_le_div_iff₀ p1 p2]
    nlinarith
  linarith

/-- rawWinningChances is odd. -/
lemma rawWinningChances_odd (s : ℝ) :
    rawWinningChances (-s) = -rawWinningChances s := by
  unfold rawWinningChances
  have hrw : MULTIPLIER * -s = -(MULTIPLIER * s) := by ring
  rw [hrw, Real.exp_neg]
  have hp : (0 : ℝ) < Real.exp (MULTIPLIER * s) := Real.exp_pos _
  have h1 : (1 : ℝ) + (Real.exp (MULTIPLIER * s))⁻¹ ≠ 0 := by positivity
  have h2 : (1 : ℝ) + Real.exp (MULTIPLIER * s) ≠ 0 := by positivity
  field_simp
  ring

/-- The clamp to [-1000, 1000] is monotone. -/
lemma clamp1000_mono {a b : ℝ} (h : a ≤ b) :
    min (max (-1000) a) 1000 ≤ min (max (-1000) b) 1000 :=
  min_le_min (max_le_max le_rfl h) le_rfl

/-- The clamp to the symmetric interval [-1000, 1000] is odd. -/
lemma clamp1000_odd (s : ℝ) :
    min (max (-1000) (-s)) 1000 = -(min (max (-1000) s) 1000) := by
  simp only [min_def, max_def]
  split_ifs <;> linarith

/-- Claim C7: cpWinningChances is monotone non-decreasing in the centipawn
value and is an odd function. -/
theorem claim_C7_winningChances_mono_odd :
    (∀ s1 s2 : ℝ, s1 ≤ s2 → cpWinningChances s1 ≤ cpWinningChances s2) ∧
    (∀ s : ℝ, cpWinningChances (-s) = -cpWinningChances s) := by
  constructor
  · intro s1 s2 h
    exact rawWinningChances_mono (clamp1000_mono h)
  · intro s
    unfold cpWinningChances
    rw [clamp1000_odd, rawWinningChances_odd]

/-- Claim C7 witness: the monotonicity and oddness at concrete inputs. -/
theorem claim_C7_witness :
    cpWinningChances 3 ≤ cpWinningChances 5 ∧
    cpWinningChances (-3) = -cpWinningChances 3 := by
  refine ⟨claim_C7_winningChances_mono_odd.1 3 5 (by norm_num), ?_⟩
  have h := claim_C7_winningChances_mono_odd.2 3
  norm_num at h ⊢
  exact h

/-- Lower numeric bound on the exponential at the saturated mate exponent
0.00368208 * 1100 = 4.050288. -/
lemma exp_sat_lb : (54.5 : ℝ) < Real.exp 4.050288 := by
  have h1 : (54.5 : ℝ) < Real.exp 4 := by
    have he : Real.exp 4 = Real.exp 1 ^ 4 := by
      rw [← Real.exp_nat_mul]; norm_num
    have hp : (2.7182818283 : ℝ) ^ 4 ≤ Real.exp 1 ^ 4 :=
      pow_le_pow_left₀ (by norm_num) Real.exp_one_gt_d9.le 4
    rw [he]
    calc (54.5 : ℝ) < 2.7182818283 ^ 4 := by norm_num
    _ ≤ Real.exp 1 ^ 4 := hp
  calc (54.5 : ℝ) < Real.exp 4 := h1
  _ ≤ Real.exp 4.050288 := Real.exp_le_exp.mpr (by norm_num)

/-- Upper numeric bound on the exponential at the saturated mate exponent. -/
lemma exp_sat_ub : Real.exp 4.050288 < 57.5 := by
  have hsplit : Real.exp 4.050288 = Real.exp 4 * Real.exp 0.050288 := by
    rw [← Real.exp_add]; norm_num
  have h4 : Real.exp 4 < 54.6 := by
    have he : Real.exp 4 = Real.exp 1 ^ 4 := by
      rw [← Real.exp_nat_mul]; norm_num
    have hp : Real.exp 1 ^ 4 < (2.7182818286 : ℝ) ^ 4 :=
      pow_lt_pow_left₀ Real.exp_one_lt_d9 (Real.exp_pos 1).le (by norm_num)
    rw [he]
    calc Real.exp 1 ^ 4 < (2.7182818286 : ℝ) ^ 4 := hp
    _ < 54.6 := by norm_num
  have hs : Real.exp 0.050288 ≤ 1.053 := by
    have h1 : (0.949712 : ℝ) ≤ Real.exp (-0.050288) := by
      have := Real.add_one_le_exp (-0.050288 : ℝ)
      linarith
    have h2 : Real.exp (-0.050288 : ℝ) = (Real.exp 0.050288)⁻¹ :=
      Real.exp_neg _
    have hp : (0 : ℝ) < Real.exp 0.050288 := Real.exp_pos _
    rw [h2] at h1
    have h3 : Real.exp 0.050288 * 0.949712 ≤ 1 := by
      have h4 := mul_le_mul_of_nonneg_left h1 hp.le
      rw [mul_inv_cancel₀ (ne_of_gt hp)] at h4
      linarith
    nlinarith
  have hpos : (0 : ℝ) < Real.exp 0.050288 := Real.exp_pos _
  have h4pos : (0 : ℝ) < Real.exp 4 := Real.exp_pos _
  calc Real.exp 4.050288 = Real.exp 4 * Real.exp 0.050288 := hsplit
  _ ≤ Real.exp 4 * 1.053 := by nlinarith
  _ < 54.6 * 1.053 := by nlinarith
  _ < 57.5 := by norm_num

/-- The bar percent of the saturated favorable sigmoid value: the chances at
an equivalent 1100 centipawns round to 98 percent. -/
lemma chancesToPercent_sat_pos :
    chancesToPercent (rawWinningChances 1100) = 98 := by
  unfold chancesToPercent jsRound rawWinningChances MULTIPLIER
  have harg : (-0.00368208 : ℝ) * 1100 = -4.050288 := by norm_num
  rw [harg, show (-4.050288 : ℝ) = -(4.050288) by norm_num, Real.exp_neg]
  set X := Real.exp 4.050288 with hX
  have hlb : (54.5 : ℝ) < X := exp_sat_lb
  have hub : X < 57.5 := exp_sat_ub
  have hXpos : (0 : ℝ) < X := Real.exp_pos _
  have hden : (0 : ℝ) < 1 + X⁻¹ := by positivity
  have hinv_ub : X⁻¹ < 1 / 39 :=
    lt_of_lt_of_le (inv_strictAnti₀ (by norm_num) hlb) (by norm_num)
  have hinv_lb : (0.016 : ℝ) < X⁻¹ :=
    lt_of_le_of_lt (by norm_num) (inv_strictAnti₀ hXpos hub)
  have h3 : (2 / (1 + X⁻¹) - 1 + 1) * 50 + 1 / 2 = 100 / (1 + X⁻¹) + 1 / 2 := by
    field_simp
    ring
  rw [h3, Int.floor_eq_iff]
  push_cast
  constructor
  · have h1 : (97.5 : ℝ) * (1 + X⁻¹) ≤ 100 := by linarith
    have h2 : (97.5 : ℝ) ≤ 100 / (1 + X⁻¹) := by
      rw [le_div_iff₀ hden]; linarith
    linarith
  · have h1 : (100 : ℝ) < 98.5 * (1 + X⁻¹) := by linarith
    have h2 : 100 / (1 + X⁻¹) < 98.5 := by
      rw [div_lt_iff₀ hden]; linarith
    linarith

/-- The bar percent of the saturated unfavorable sigmoid value: the chances
at an equivalent -1100 centipawns round to 2 percent. -/
lemma chancesToPercent_sat_neg :
    chancesToPercent (rawWinningChances (-1100)) = 2 := by
  unfold chancesToPercent jsRound rawWinningChances MULTIPLIER
  have harg : (-0.00368208 : ℝ) * (-1100) = 4.050288 := by norm_num
  rw [harg]
  set X := Real.exp 4.050288 with hX
  have hlb : (54.5 : ℝ) < X := exp_sat_lb
  have hub : X < 57.5 := exp_sat_ub
  have hden : (0 : ℝ) < 1 + X := by positivity
  have h3 : (2 / (1 + X) - 1 + 1) * 50 + 1 / 2 = 100 / (1 + X) + 1 / 2 := by
    field_simp
    ring
  rw [h3, Int.floor_eq_iff]
  push_cast
  constructor
  · have h1 : (1.5 : ℝ) * (1 + X) ≤ 100 := by linarith
    have h2 : (1.5 : ℝ) ≤ 100 / (1 + X) := by
      rw [le_div_iff₀ hden]; linarith
    linarith
  · have h1 : (100 : ℝ) < 2.5 * (1 + X) := by linarith
    have h2 : 100 / (1 + X) < 2.5 := by
      rw [div_lt_iff₀ hden]; linarith
    linarith

/-- For a mate count of at least 10 the mate mapping saturates at the
equivalent of +1100 centipawns. -/
lemma mateWinningChances_sat_pos {m : ℤ} (h : 10 ≤ m) :
    mateWinningChances m = rawWinningChances 1100 := by
  unfold mateWinningChances
  have habs : |(m : ℝ)| = (m : ℝ) := by
    rw [abs_of_nonneg]
    exact_mod_cast le_trans (by norm_num) h
  have hmin : min 10 |(m : ℝ)| = 10 := by
    rw [habs]
    exact min_eq_left (by exact_mod_cast h)
  have hpos : 0 < m := lt_of_lt_of_le (by norm_num) h
  rw [hmin, if_pos hpos]
  norm_num

/-- For a mate count of at most -10 the mate mapping saturates at the
equivalent of -1100 centipawns. -/
lemma mateWinningChances_sat_neg {m : ℤ} (h : m ≤ -10) :
    mateWinningChances m = rawWinningChances (-1100) := by
  unfold mateWinningChances
  have habs : |(m : ℝ)| = -(m : ℝ) := by
    rw [abs_of_nonpos]
    exact_mod_cast le_trans h (by norm_num)
  have hmin : min 10 |(m : ℝ)| = 10 := by
    rw [habs]
    refine min_eq_left ?_
    have : (m : ℝ) ≤ -10 := by exact_mod_cast h
    linarith
  have hneg : ¬ (0 < m) := by omega
  rw [hmin, if_neg hneg]
  norm_num

/-- The zero-centipawn bar percent is 50. -/
lemma getEvalBarPercent_cp_zero : getEvalBarPercent (Score.cp 0) = 50 := by
  have h0 : evalWinningChances (Score.cp 0) = 0 := by
    show cpWinningChances ((0 : ℤ) : ℝ) = 0
    unfold cpWinningChances rawWinningChances MULTIPLIER
    have h1 : min (max (-1000 : ℝ) ((0 : ℤ) : ℝ)) 1000 = 0 := by
      push_cast
      rw [max_eq_right (by norm_num), min_eq_left (by norm_num)]
    rw [h1]
    norm_num
  unfold getEvalBarPercent chancesToPercent jsRound
  rw [h0, Int.floor_eq_iff]
  push_cast
  norm_num

/-- Claim C8 counterexample: even an arbitrarily large mate count in favour
of the reference side gives a bar percent of 98, not 100 - the sigmoid on the
clamped equivalent of 1100 centipawns never reaches 100. -/
theorem claim_C8_counterexample :
    getEvalBarPercent (Score.mate 1000000) = 98 ∧ (98 : ℤ) ≠ 100 := by
  constructor
  · show chancesToPercent (mateWinningChances 1000000) = 98
    rw [mateWinningChances_sat_pos (by norm_num)]
    exact chancesToPercent_sat_pos
  · decide

/-- Claim C8 amended: barPercent maps 0 centipawns to 50; every mate count of
at least 10 in favour of the reference side to 98; every mate count of at
most -10 to 2.  Large mates saturate at the sigmoid value of the equivalent
1100 centipawns, not at 100 / 0. -/
theorem claim_C8_barPercent_anchors :
    getEvalBarPercent (Score.cp 0) = 50 ∧
    (∀ m : ℤ, 10 ≤ m → getEvalBarPercent (Score.mate m) = 98) ∧
    (∀ m : ℤ, m ≤ -10 → getEvalBarPercent (Score.mate m) = 2) := by
  refine ⟨getEvalBarPercent_cp_zero, ?_, ?_⟩
  · intro m hm
    show chancesToPercent (mateWinningChances m) = 98
    rw [mateWinningChances_sat_pos hm]
    exact chancesToPercent_sat_pos
  · intro m hm
    show chancesToPercent (mateWinningChances m) = 2
    rw [mateWinningChances_sat_neg hm]
    exact chancesToPercent_sat_neg

/-- Claim C8 witness: the anchors at 0 centipawns, mate in 10 and mate in
-10. -/
theorem claim_C8_witness :
    getEvalBarPercent (Score.cp 0) = 50 ∧
    getEvalBarPercent (Score.mate 10) = 98 ∧
    getEvalBarPercent (Score.mate (-10)) = 2 :=
  ⟨claim_C8_barPercent_anchors.1,
   claim_C8_barPercent_anchors.2.1 10 (by norm_num),
   claim_C8_barPercent_anchors.2.2 (-10) (by norm_num)⟩

/-- Modelled from the spec words of section 4.1: the equivalent large
centipawn magnitude of a mate score, (21 - min(10, |mate|)) * 100, signed by
the mating side. -/
def spec_mateEquivalentCp (m : ℤ) : ℤ :=
  (21 - min 10 |m|) * 100 * (if 0 < m then 1 else -1)

/-- Claim C5 counterexample: at the cited lines of src/app/StockfishEngine.js
the bar percent of a mate score is a hard 0 / 100 cutoff, not the sigmoid:
any winning mate count gives exactly 100 (and any losing one 0), while the
claimed sigmoid computation gives 98 at mate in 10. -/
theorem claim_C5_counterexample :
    legacyGetEvalBarPercent 10 ScoreType.mate Turn.w = 100 ∧
    legacyGetEvalBarPercent 1000000 ScoreType.mate Turn.w = 100 ∧
    legacyGetEvalBarPercent 1 ScoreType.mate Turn.w = 100 ∧
    legacyGetEvalBarPercent (-1) ScoreType.mate Turn.w = 0 ∧
    chancesToPercent (mateWinningChances 10) = 98 ∧ (98 : ℤ) ≠ 100 := by
  refine ⟨?_, ?_, ?_, ?_, ?_, by decide⟩
  · simp [legacyGetEvalBarPercent]
  · simp [legacyGetEvalBarPercent]
  · simp [legacyGetEvalBarPercent]
  · simp [legacyGetEvalBarPercent]
  · rw [mateWinningChances_sat_pos (by norm_num)]
    exact chancesToPercent_sat_pos

/-- Claim C5 amended: the winning-chances module getEvalBarPercent (the one
used by the eval bar component) does compute mate bar percents by the
spec formula - equivalent centipawns (21 - min(10, |mate|)) * 100 signed by
the mating side, then the same sigmoid as centipawn scores; the legacy
StockfishEngine.getEvalBarPercent instead keeps the hard 0 / 100 cutoff for
mate scores. -/
theorem claim_C5_mate_sigmoid :
    (∀ m : ℤ, getEvalBarPercent (Score.mate m)
        = chancesToPercent (rawWinningChances ((spec_mateEquivalentCp m : ℤ) : ℝ))) ∧
    (∀ m : ℤ, 0 < m → legacyGetEvalBarPercent m ScoreType.mate Turn.w = 100) ∧
    (∀ m : ℤ, m < 0 → legacyGetEvalBarPercent m ScoreType.mate Turn.w = 0) := by
  refine ⟨?_, ?_, ?_⟩
  · intro m
    show chancesToPercent (mateWinningChances m) = _
    unfold mateWinningChances spec_mateEquivalentCp
    congr 1
    push_cast
    split_ifs <;> ring
  · intro m hm
    simp [legacyGetEvalBarPercent, hm]
  · intro m hm
    have : ¬ (0 < m) := by omega
    simp [legacyGetEvalBarPercent, this]

/-- Claim C5 witness: the module formula at mate in 3, and the legacy hard
cutoff at winning and losing mates. -/
theorem claim_C5_witness :
    getEvalBarPercent (Score.mate 3)
      = chancesToPercent (rawWinningChances ((spec_mateEquivalentCp 3 : ℤ) : ℝ)) ∧
    legacyGetEvalBarPercent 3 ScoreType.mate Turn.w = 100 ∧
    legacyGetEvalBarPercent (-3) ScoreType.mate Turn.w = 0 :=
  ⟨claim_C5_mate_sigmoid.1 3,
   claim_C5_mate_sigmoid.2.1 3 (by norm_num),
   claim_C5_mate_sigmoid.2.2 (-3) (by norm_num)⟩

/-! ## Structure of the formatCp output -/

/-- Digit characters below ten are not the plus sign. -/
lemma digitChar_ne_plus {d : ℕ} (h : d < 10) : digitChar d ≠ '+' := by
  interval_cases d <;> decide

/-- Digit characters below ten are not the decimal point. -/
lemma digitChar_ne_dot {d : ℕ} (h : d < 10) : digitChar d ≠ '.' := by
  interval_cases d <;> decide

/-- Every character of natStr2 below 100 is a decimal digit. -/
lemma natStr2_chars {a : ℕ} (h : a ≤ 99) :
    ∀ c ∈ (natStr2 a).data, ∃ d, d < 10 ∧ c = digitChar d := by
  unfold natStr2
  split_ifs with h1
  · intro c hc
    simp at hc
    exact ⟨a, h1, hc⟩
  · intro c hc
    simp at hc
    rcases hc with rfl | rfl
    · exact ⟨a / 10, by omega, rfl⟩
    · exact ⟨a % 10, by omega, rfl⟩

/-- The first character of natStr2 below 100 is a decimal digit. -/
lemma natStr2_head {a : ℕ} (h : a ≤ 99) :
    ∃ d, d < 10 ∧ (natStr2 a).data.head? = some (digitChar d) := by
  unfold natStr2
  split_ifs with h1
  · exact ⟨a, h1, rfl⟩
  · exact ⟨a / 10, by omega, rfl⟩

/-- The character decomposition of the formatCp output. -/
lemma formatCp_data (cp : ℤ) :
    (formatCp cp).data
      = (if 0 < formatCpTenths cp then ['+'] else [])
        ++ (if formatCpTenths cp < 0 then ['-'] else [])
        ++ (natStr2 ((formatCpTenths cp).natAbs / 10)).data
        ++ ['.', digitChar ((formatCpTenths cp).natAbs % 10)] := by
  unfold formatCp toFixed1
  split_ifs <;> simp [String.data_append]

/-- The clamped tenths value is within 990 in absolute value. -/
lemma formatCpTenths_bounds (cp : ℤ) :
    -990 ≤ formatCpTenths cp ∧ formatCpTenths cp ≤ 990 :=
  ⟨le_max_right _ _, max_le (min_le_right _ _) (by norm_num)⟩

/-- Claim C10: the centipawn display formatter clamps the printed value to
[-99.0, +99.0] (tenths in [-990, 990]), prints exactly one decimal digit
after the single decimal point, and starts with a plus sign exactly when the
clamped rounded value is strictly positive; a clamped zero prints as 0.0
without a sign. -/
theorem claim_C10_formatCp (cp : ℤ) :
    (-990 ≤ formatCpTenths cp ∧ formatCpTenths cp ≤ 990) ∧
    ((formatCp cp).data.head? = some '+' ↔ 0 < formatCpTenths cp) ∧
    (∃ pre, (formatCp cp).data
        = pre ++ ['.', digitChar ((formatCpTenths cp).natAbs % 10)]
      ∧ (formatCpTenths cp).natAbs % 10 < 10 ∧ ('.') ∉ pre) ∧
    (formatCpTenths cp = 0 → formatCp cp = "0.0") := by
  have hb := formatCpTenths_bounds cp
  have ha : (formatCpTenths cp).natAbs / 10 ≤ 99 := by omega
  obtain ⟨d0, hd0, hhead⟩ := natStr2_head ha
  refine ⟨hb, ?_, ?_, ?_⟩
  · rw [formatCp_data]
    rcases lt_trichotomy (formatCpTenths cp) 0 with hneg | hz | hpos
    · have h1 : ¬ 0 < formatCpTenths cp := by omega
      simp only [if_neg h1, if_pos hneg, List.nil_append, List.cons_append,
        List.head?_cons]
      constructor
      · intro h
        injection h with h
        exact absurd h (by decide)
      · intro h
        exact absurd h (by omega)
    · have h1 : ¬ 0 < formatCpTenths cp := by omega
      have h2 : ¬ formatCpTenths cp < 0 := by omega
      simp only [if_neg h1, if_neg h2, List.nil_append]
      rw [List.head?_append_of_ne_nil, hhead]
      · constructor
        · intro h
          injection h with h
          exact absurd h (digitChar_ne_plus hd0)
        · intro h
          exact absurd h (by omega)
      · intro hnil
        rw [hnil] at hhead
        simp at hhead
    · simp only [if_pos hpos, List.cons_append, List.head?_cons]
      simp [hpos]
  · refine ⟨((if 0 < formatCpTenths cp then ['+'] else [])
        ++ (if formatCpTenths cp < 0 then ['-'] else []))
        ++ (natStr2 ((formatCpTenths cp).natAbs / 10)).data, ?_, by omega, ?_⟩
    · rw [formatCp_data]
    · intro hdot
      rcases List.mem_append.mp hdot with h12 | h3
      · rcases List.mem_append.mp h12 with h1 | h1
        · revert h1
          split_ifs <;> decide
        · revert h1
          split_ifs <;> decide
      · obtain ⟨d, hd, hc⟩ := natStr2_chars ha _ h3
        exact digitChar_ne_dot hd hc.symm
  · intro hz
    unfold formatCp toFixed1
    rw [hz]
    decide

/-- Claim C10 witness: a concrete centipawn value that clamps and rounds to
zero prints as 0.0 without a sign, within the clamp bounds. -/
theorem claim_C10_witness :
    formatCp (-3) = "0.0" ∧
    (-990 ≤ formatCpTenths (-3) ∧ formatCpTenths (-3) ≤ 990) :=
  ⟨(claim_C10_formatCp (-3)).2.2.2 (by decide), (claim_C10_formatCp (-3)).1⟩

end OpeningTree
